import Mathlib

/-!
# Verification of `ml_research_toolkit.loggers.csv_logger.CSVLogger`

Shallow embedding of `src/ml_research_toolkit/loggers/csv_logger.py`.

The logger's externally visible state is modelled by:
* `Logger` — the instance fields `autosave`, `headers_written`, `keys`;
* `LogFile` — the CSV file on disk: `Option.none` when the file does not
  exist, `some recs` when it exists with `recs` the list of records
  (each record the list of its parsed fields, i.e. the logical CSV
  content; `csvLine`/`fileLines` serialize records to on-disk lines with
  standard delimited-text quoting).

Python values passed as keyword arguments are modelled by `PyVal`:
strings, numeric scalars (carried in their `str()` rendering), Python
lists of integers, and array-like objects exposing `tolist` (NumPy
arrays).  Reading the file back through `polars.read_csv` is modelled by
`parseCSV` with per-column type inference (all-int column, else
all-decimal column parsed into `Rat`, else string column; empty fields
are nulls), as polars does for delimited text.
-/

/-- A Python value that can appear as a keyword-argument value of `log`.
`num s` is a numeric scalar (int or float) whose `str()` rendering is `s`;
`pylist` is a Python `list`; `arrayLike` is an object with a `tolist`
method (e.g. a NumPy array). -/
inductive PyVal where
  | str (s : String)
  | num (s : String)
  | pylist (xs : List Int)
  | arrayLike (xs : List Int)
deriving DecidableEq, Repr

/-- Python's `str` applied to a list of integers: bracketed,
comma-plus-space separated. -/
def strOfList (xs : List Int) : String :=
  "[" ++ String.intercalate ", " (xs.map toString) ++ "]"

/-- The value conversions performed inside `CSVLogger.log` (lines 44-49 of
the source): an array-like is first materialized with `tolist`, and any
resulting Python list is rendered with `str` (keeping brackets). -/
def convertVal : PyVal → PyVal
  | PyVal.arrayLike xs => PyVal.str (strOfList xs)
  | PyVal.pylist xs => PyVal.str (strOfList xs)
  | v => v

/-- The textual field that `csv.writer` writes for a (converted) cell
value; Python `None` (a key missing from the call) becomes the empty
field. -/
def fieldOf : Option PyVal → String
  | Option.none => ""
  | some v =>
    match convertVal v with
    | PyVal.str s => s
    | PyVal.num s => s
    | PyVal.pylist xs => strOfList xs
    | PyVal.arrayLike xs => strOfList xs

/-- `kwargs.get(k, None)`: dictionary lookup in the keyword arguments. -/
def lookupVal (kw : List (String × PyVal)) (k : String) : Option PyVal :=
  (kw.find? (fun q => q.1 == k)).map (fun q => q.2)

/-- The row built by `CSVLogger.log`: the input projected onto the fixed
key order `ks`, missing keys rendered as empty fields. -/
def projRow (ks : List String) (kw : List (String × PyVal)) : List String :=
  ks.map (fun k => fieldOf (lookupVal kw k))

/-- The mutable instance state of a `CSVLogger`. -/
structure Logger where
  autosave : Bool
  headersWritten : Bool
  keys : Option (List String)
deriving DecidableEq, Repr

/-- The CSV file on disk: `none` when absent, otherwise the list of
records (header line included when written). -/
abbrev LogFile := Option (List (List String))

namespace CSVLogger

/-- `CSVLogger.__init__`: `headers_written = os.path.exists(filepath)`,
`keys = None`; `fileExists` says whether the file exists at construction
time. -/
def init (fileExists : Bool) (autosave : Bool) : Logger :=
  ⟨autosave, fileExists, Option.none⟩

/-- `CSVLogger._append_row`: opens the file in append mode (creating it
when absent), writes the header `self.keys` when the file is new or the
header was not yet recorded, then the row, then flushes and syncs. -/
def append_row (lg : Logger) (file : LogFile) (row : List String) :
    Logger × LogFile :=
  let contents := file.getD []
  if file.isNone || !lg.headersWritten then
    (⟨lg.autosave, true, lg.keys⟩, some (contents ++ [lg.keys.getD [], row]))
  else
    (lg, some (contents ++ [row]))

/-- The key order `self.keys` holds after the `if self.keys is None`
block of `log`: fixed to the input's key order on the first call. -/
def effKeys (lg : Logger) (kw : List (String × PyVal)) : List String :=
  match lg.keys with
  | Option.none => kw.map Prod.fst
  | some ks => ks

/-- `CSVLogger.log`: fix the schema on first call, project the input onto
it, and append the row when `autosave` is set. -/
def log (lg : Logger) (file : LogFile) (kw : List (String × PyVal)) :
    Logger × LogFile :=
  let ks := effKeys lg kw
  let lg1 : Logger := ⟨lg.autosave, lg.headersWritten, some ks⟩
  let row := projRow ks kw
  if lg.autosave then append_row lg1 file row else (lg1, file)

/-- A sequence of `log` calls on one instance. -/
def logMany (lg : Logger) (file : LogFile)
    (calls : List (List (String × PyVal))) : Logger × LogFile :=
  calls.foldl (fun p kw => log p.1 p.2 kw) (lg, file)

/-- `CSVLogger.remove`: delete the file and reset the schema state, but
only when the file exists; otherwise the body is skipped entirely. -/
def remove (lg : Logger) (file : LogFile) : Logger × LogFile :=
  match file with
  | some _ => (⟨lg.autosave, false, Option.none⟩, Option.none)
  | Option.none => (lg, Option.none)

end CSVLogger

/-- Does a field need delimited-text quoting on disk? -/
def needsQuote (s : String) : Bool :=
  s.toList.any (fun c => c == ',' || c == '\"' || c == '\n' || c == '\r')

/-- Double every quote character, as standard CSV quoting demands. -/
def escapeQuotes : List Char → List Char
  | [] => []
  | c :: rest =>
    if c == '\"' then '\"' :: '\"' :: escapeQuotes rest
    else c :: escapeQuotes rest

/-- Standard CSV quoting of one field, as `csv.writer` performs it. -/
def quoteField (s : String) : String :=
  if needsQuote s then "\"" ++ String.mk (escapeQuotes s.toList) ++ "\"" else s

/-- One on-disk CSV line for a record. -/
def csvLine (fields : List String) : String :=
  String.intercalate "," (fields.map quoteField)

/-- The on-disk lines of the log file (empty when the file is absent). -/
def fileLines (file : LogFile) : List String :=
  (file.getD []).map csvLine

/-- A cell of a parsed table, after polars' per-column type inference. -/
inductive Cell where
  | int (n : Int)
  | float (q : Rat)
  | str (s : String)
  | null
deriving DecidableEq, Repr

/-- The numeric value of a nonempty all-digit character list. -/
def digitsVal (cs : List Char) : Option Nat :=
  if !cs.isEmpty && cs.all Char.isDigit then
    some (cs.foldl (fun a c => a * 10 + (c.toNat - 48)) 0)
  else
    Option.none

/-- Integer parse of a field (optional sign then digits), as schema
inference applies it. -/
def parseIntChars : List Char → Option Int
  | '-' :: rest => (digitsVal rest).map (fun n => -(n : Int))
  | '+' :: rest => (digitsVal rest).map (fun n => (n : Int))
  | cs => (digitsVal cs).map (fun n => (n : Int))

/-- Integer parse of a field. -/
def parseIntStr (s : String) : Option Int :=
  parseIntChars s.toList

/-- Split a character list on a separator character. -/
def splitOnChar (sep : Char) : List Char → List (List Char)
  | [] => [[]]
  | c :: rest =>
    match splitOnChar sep rest with
    | [] => [[]]
    | g :: gs => if c == sep then [] :: g :: gs else (c :: g) :: gs

/-- Decimal parse of the character list of a field (optional sign,
digits, optional fractional part), yielding the exact rational value
the float denotes. -/
def parseFloatChars (cs : List Char) : Option Rat :=
  let sign : Int := match cs with
    | '-' :: _ => -1
    | _ => 1
  let body : List Char := match cs with
    | '-' :: rest => rest
    | _ => cs
  match splitOnChar '.' body with
  | [ip, fp] =>
    match digitsVal ip, digitsVal fp with
    | some i, some f =>
        some (mkRat (sign * ((i : Int) * 10 ^ fp.length + (f : Int)))
          (10 ^ fp.length))
    | _, _ => Option.none
  | [ip] =>
    match digitsVal ip with
    | some i => some (mkRat (sign * (i : Int)) 1)
    | _ => Option.none
  | _ => Option.none

/-- Decimal parse of a field. -/
def parseFloatStr (s : String) : Option Rat :=
  parseFloatChars s.toList

/-- Per-column type inference and parsing, as `polars.read_csv` performs
it: an all-integer column is integral, else an all-decimal column is
float, else the column is textual; empty fields are nulls. -/
def inferColumn (fields : List String) : List Cell :=
  if fields.all (fun s => s == "" || (parseIntStr s).isSome) then
    fields.map (fun s =>
      match parseIntStr s with
      | some n => Cell.int n
      | Option.none => Cell.null)
  else if fields.all (fun s => s == "" || (parseFloatStr s).isSome) then
    fields.map (fun s =>
      match parseFloatStr s with
      | some q => Cell.float q
      | Option.none => Cell.null)
  else
    fields.map (fun s => if s == "" then Cell.null else Cell.str s)

/-- A parsed table: ordered column names and, column-major, the parsed
cells of each column. -/
structure DataFrame where
  columns : List String
  cols : List (List Cell)
deriving DecidableEq, Repr

/-- `pl.DataFrame()`: the empty frame, no columns and no rows. -/
def DataFrame.empty : DataFrame := ⟨[], []⟩

/-- The number of rows of a frame (`df.height`); `is_empty` is
`height == 0`. -/
def DataFrame.height (df : DataFrame) : Nat :=
  (df.cols.headD []).length

/-- `polars.read_csv` on the file's records: the first record is the
header; it fails on an empty file (`NoDataError`) or when a data record
has more fields than the header (`ComputeError`).  A record with fewer
fields than the header is accepted: the missing trailing fields are
null-padded (here: read as the empty field, which parses to null). -/
def parseCSV (recs : List (List String)) : Except String DataFrame :=
  match recs with
  | [] => Except.error "NoDataError: empty CSV"
  | header :: rows =>
    if rows.all (fun r => r.length ≤ header.length) then
      Except.ok ⟨header, (List.range header.length).map
        (fun j => inferColumn (rows.map (fun r => r.getD j "")))⟩
    else
      Except.error "ComputeError: found more fields than defined in header"

namespace CSVLogger

/-- `CSVLogger.to_dataframe`: empty frame when the file does not exist;
otherwise `pl.read_csv`, any parse failure re-raised as a
`RuntimeError`. -/
def to_dataframe (file : LogFile) : Except String DataFrame :=
  match file with
  | Option.none => Except.ok DataFrame.empty
  | some recs =>
    match parseCSV recs with
    | Except.ok df => Except.ok df
    | Except.error e =>
        Except.error ("RuntimeError: Failed to load DataFrame: " ++ e)

/-- The exception raised by `df[key].tolist()` at csv_logger.py line 80:
`df[key]` is a polars `Series`, which provides `to_list` but no
`tolist` (a pandas method — note the commented-out pandas import), so
the attribute access fails whenever the column exists. -/
def attrErrMsg : String :=
  "AttributeError: Series object has no attribute tolist"

/-- `CSVLogger.get`: evaluates `df[key].tolist() if key in df else []`.
Failures of `to_dataframe` propagate; when the key names an existing
column, `df[key]` is a polars `Series` and the `tolist` attribute
access raises; when the key is absent the else arm returns the empty
list. -/
def get (file : LogFile) (key : String) : Except String (List Cell) :=
  match to_dataframe file with
  | Except.error e => Except.error e
  | Except.ok df =>
    match df.columns.findIdx? (fun c => c == key) with
    | some _ => Except.error attrErrMsg
    | Option.none => Except.ok []

/-- The exception escaping `load_from_disk` when the file does not exist:
`df` is assigned only inside the `if os.path.exists(...)` branch, so the
final `return df` reads an unbound local. -/
def nameErrMsg : String :=
  "UnboundLocalError: local variable df referenced before assignment"

/-- `CSVLogger.load_from_disk`: when the file exists, read it (parse
errors propagate) and, if the frame is non-empty, adopt its columns as
the schema and mark the header written; when the file does not exist,
`return df` raises on the unbound local. -/
def load_from_disk (lg : Logger) (file : LogFile) :
    Except String (Logger × DataFrame) :=
  match file with
  | Option.none => Except.error nameErrMsg
  | some recs =>
    match parseCSV recs with
    | Except.error e => Except.error e
    | Except.ok df =>
      if df.height ≠ 0 then
        Except.ok (⟨lg.autosave, true, some df.columns⟩, df)
      else
        Except.ok (lg, df)

/-- The input of a raw `logger.log(**x)` call site: binding `**x`
succeeds only for a mapping; a non-mapping argument fails at the call
boundary, before the body runs. -/
inductive LogInput where
  | mapping (kw : List (String × PyVal))
  | nonMapping (v : PyVal)
deriving DecidableEq, Repr

/-- The error raised when `log` is invoked with non-mapping input
(the spec's `InvalidRowError`). -/
def invalidRowMsg : String :=
  "InvalidRowError: argument after ** must be a mapping"

/-- A `log` call together with its effect on the file, exceptions
surfaced: a mapping input runs `log`; a non-mapping input raises
synchronously and the file is untouched. -/
def logRun (lg : Logger) (file : LogFile) (input : LogInput) :
    Except String Logger × LogFile :=
  match input with
  | LogInput.mapping kw =>
      let r := log lg file kw
      (Except.ok r.1, r.2)
  | LogInput.nonMapping _ => (Except.error invalidRowMsg, file)

end CSVLogger

/-! ## Helper lemmas -/

/-- One `log` call in the steady state (schema bound, header written,
file present, autosave on) appends exactly the projected row. -/
theorem log_steady (ks : List String) (recs : List (List String))
    (kw : List (String × PyVal)) :
    CSVLogger.log ⟨true, true, some ks⟩ (some recs) kw
      = (⟨true, true, some ks⟩, some (recs ++ [projRow ks kw])) := rfl

/-- A whole sequence of `log` calls in the steady state appends exactly
the projected rows, in call order. -/
theorem logMany_steady (ks : List String)
    (calls : List (List (String × PyVal))) :
    ∀ recs : List (List String),
      CSVLogger.logMany ⟨true, true, some ks⟩ (some recs) calls
        = (⟨true, true, some ks⟩,
           some (recs ++ calls.map (projRow ks))) := by
  induction calls with
  | nil =>
    intro recs
    simp [CSVLogger.logMany]
  | cons c cs ih =>
    intro recs
    show CSVLogger.logMany ⟨true, true, some ks⟩
        (some (recs ++ [projRow ks c])) cs = _
    rw [ih]
    simp

/-- From a fresh instance (autosave on, no file at construction), a
nonempty sequence of `log` calls writes the first call's key order as
the single header line followed by one projected row per call. -/
theorem logMany_fresh (c : List (String × PyVal))
    (cs : List (List (String × PyVal))) :
    CSVLogger.logMany (CSVLogger.init false true) Option.none (c :: cs)
      = (⟨true, true, some (c.map Prod.fst)⟩,
         some ((c.map Prod.fst)
           :: (c :: cs).map (projRow (c.map Prod.fst)))) := by
  show CSVLogger.logMany ⟨true, true, some (c.map Prod.fst)⟩
      (some [c.map Prod.fst, projRow (c.map Prod.fst) c]) cs = _
  rw [logMany_steady]
  simp

/-- A key absent from the input's key set looks up to Python `None`. -/
theorem lookupVal_not_mem (kw : List (String × PyVal)) (k : String)
    (hk : k ∉ kw.map Prod.fst) : lookupVal kw k = Option.none := by
  have hfind : kw.find? (fun q => q.1 == k) = Option.none := by
    rw [List.find?_eq_none]
    intro q hq
    simp only [beq_iff_eq]
    intro h
    exact hk (List.mem_map.mpr ⟨q, hq, h⟩)
  simp [lookupVal, hfind]

/-- The last line of a file ending in two appended records is the second
of them. -/
theorem getLast?_append_pair {α : Type} (l : List α) (a b : α) :
    (l ++ [a, b]).getLast? = some b := by
  rw [show l ++ [a, b] = (l ++ [a]) ++ [b] by simp]
  exact List.getLast?_concat _

/-! ## Claims -/

/-- **C1** Header-once invariant: for a logger constructed with
`autosave=True` over a file that does not exist at construction time,
any nonempty sequence of `log` calls whose inputs all share one key set
— `ks` is the first call's key order (first-seen order) and every
call's key list is a permutation of it — leaves on disk exactly one
header line (the keys in first-seen order) followed by exactly one data
line per call; and after every prefix of the call sequence the file is
either absent (empty) or a header plus complete rows. -/
theorem C1_header_once (ks : List String)
    (calls : List (List (String × PyVal)))
    (hne : calls ≠ [])
    (hfirst : ((calls.headD []).map Prod.fst) = ks)
    (hks : ∀ kw ∈ calls, (kw.map Prod.fst).Perm ks) :
    ((CSVLogger.logMany (CSVLogger.init false true) Option.none calls).2
        = some (ks :: calls.map (projRow ks))
      ∧ (calls.map (projRow ks)).length = calls.length)
    ∧ ∀ pre suf, calls = pre ++ suf →
        (CSVLogger.logMany (CSVLogger.init false true) Option.none pre).2
          = Option.none
        ∨ (CSVLogger.logMany (CSVLogger.init false true) Option.none pre).2
          = some (ks :: pre.map (projRow ks)) := by
  obtain ⟨c, cs, rfl⟩ : ∃ c cs, calls = c :: cs := by
    cases calls with
    | nil => exact absurd rfl hne
    | cons c cs => exact ⟨c, cs, rfl⟩
  have hc : c.map Prod.fst = ks := hfirst
  constructor
  · constructor
    · have h := logMany_fresh c cs
      rw [hc] at h
      rw [h]
    · simp
  · intro pre suf hps
    cases pre with
    | nil => exact Or.inl rfl
    | cons p ps =>
      right
      have hcp : c = p := by
        simp only [List.cons_append, List.cons.injEq] at hps
        exact hps.1
      subst hcp
      have h := logMany_fresh c ps
      rw [hc] at h
      rw [h]

/-- Witness for C1 at a two-call sequence whose second call lists the
same keys in a different order. -/
theorem C1_header_once_witness :
    (CSVLogger.logMany (CSVLogger.init false true) Option.none
        [[("a", PyVal.num "1"), ("b", PyVal.num "2")],
         [("b", PyVal.num "3"), ("a", PyVal.num "4")]]).2
      = some (["a", "b"]
          :: [[("a", PyVal.num "1"), ("b", PyVal.num "2")],
              [("b", PyVal.num "3"), ("a", PyVal.num "4")]].map
            (projRow ["a", "b"])) :=
  (C1_header_once ["a", "b"]
    [[("a", PyVal.num "1"), ("b", PyVal.num "2")],
     [("b", PyVal.num "3"), ("a", PyVal.num "4")]]
    (by decide) (by decide) (by decide)).1.1

/-- **C2** Concrete scenario, evaluated at the claim's failing input:
on a fresh autosaving logger, `log(loss=0.5, step=1)` then
`log(loss=0.3, step=2)` leaves exactly the three lines `loss,step`,
`0.5,1`, `0.3,2` on disk, and the parsed table does hold the two logged
loss values 0.5 and 0.3 (the rationals 1/2 and 3/10) in row order — but
`get("loss")` itself, `df[key].tolist()` at csv_logger.py line 80,
raises `AttributeError` because a polars `Series` has `to_list` and no
`tolist`, so the claimed return of `[0.5, 0.3]` never happens. -/
theorem C2_concrete_scenario :
    fileLines (CSVLogger.log
        (CSVLogger.log (CSVLogger.init false true) Option.none
          [("loss", PyVal.num "0.5"), ("step", PyVal.num "1")]).1
        (CSVLogger.log (CSVLogger.init false true) Option.none
          [("loss", PyVal.num "0.5"), ("step", PyVal.num "1")]).2
        [("loss", PyVal.num "0.3"), ("step", PyVal.num "2")]).2
      = ["loss,step", "0.5,1", "0.3,2"]
    ∧ CSVLogger.to_dataframe (CSVLogger.log
        (CSVLogger.log (CSVLogger.init false true) Option.none
          [("loss", PyVal.num "0.5"), ("step", PyVal.num "1")]).1
        (CSVLogger.log (CSVLogger.init false true) Option.none
          [("loss", PyVal.num "0.5"), ("step", PyVal.num "1")]).2
        [("loss", PyVal.num "0.3"), ("step", PyVal.num "2")]).2
      = Except.ok ⟨["loss", "step"],
          [[Cell.float (mkRat 1 2), Cell.float (mkRat 3 10)],
           [Cell.int 1, Cell.int 2]]⟩
    ∧ CSVLogger.get (CSVLogger.log
        (CSVLogger.log (CSVLogger.init false true) Option.none
          [("loss", PyVal.num "0.5"), ("step", PyVal.num "1")]).1
        (CSVLogger.log (CSVLogger.init false true) Option.none
          [("loss", PyVal.num "0.5"), ("step", PyVal.num "1")]).2
        [("loss", PyVal.num "0.3"), ("step", PyVal.num "2")]).2 "loss"
      = Except.error CSVLogger.attrErrMsg :=
  ⟨rfl, rfl, rfl⟩

/-- **C3** Schema projection: once the schema is fixed to `ks`, a `log`
call writes exactly `ks`'s columns in `ks`'s order; a schema key absent
from the input becomes an empty field; input keys outside the schema
are ignored without error, and the written row depends only on the
input's value for each schema key (so the input's key order is
irrelevant). -/
theorem C3_schema_projection (ks : List String) (recs : List (List String))
    (kw : List (String × PyVal)) :
    (CSVLogger.log ⟨true, true, some ks⟩ (some recs) kw).2
        = some (recs ++ [projRow ks kw])
    ∧ (projRow ks kw).length = ks.length
    ∧ (∀ k, k ∈ ks → k ∉ kw.map Prod.fst → fieldOf (lookupVal kw k) = "")
    ∧ (∀ kw', (∀ k ∈ ks, lookupVal kw' k = lookupVal kw k) →
        projRow ks kw' = projRow ks kw) := by
  refine ⟨rfl, by simp [projRow], ?_, ?_⟩
  · intro k _ hk
    rw [lookupVal_not_mem kw k hk]
    rfl
  · intro kw' h
    exact List.map_congr_left (fun k hk => by rw [h k hk])

/-- Witness for C3 at a concrete schema and input. -/
theorem C3_schema_projection_witness :
    (CSVLogger.log ⟨true, true, some ["a", "b"]⟩ (some [["a", "b"]])
        [("b", PyVal.num "2"), ("c", PyVal.num "9")]).2
      = some ([["a", "b"]]
          ++ [projRow ["a", "b"] [("b", PyVal.num "2"), ("c", PyVal.num "9")]]) :=
  (C3_schema_projection ["a", "b"] [["a", "b"]]
    [("b", PyVal.num "2"), ("c", PyVal.num "9")]).1

/-- **C4** Durability: with `autosave=True`, every `log` call writes
through to the file before returning — afterwards the file exists and
its last line is exactly the row just logged, so an immediate re-open
sees it (the append ends in `flush` plus `fsync`; no buffering across
calls). -/
theorem C4_durability (lg : Logger) (file : LogFile)
    (kw : List (String × PyVal)) (h : lg.autosave = true) :
    ((CSVLogger.log lg file kw).2).isSome = true
    ∧ ((CSVLogger.log lg file kw).2.getD []).getLast?
        = some (projRow (CSVLogger.effKeys lg kw) kw) := by
  obtain ⟨a, hw, okeys⟩ := lg
  subst h
  cases file with
  | none =>
    cases hw <;>
      exact ⟨rfl, rfl⟩
  | some recs =>
    cases hw with
    | false =>
      exact ⟨rfl, getLast?_append_pair recs _ _⟩
    | true =>
      exact ⟨rfl, List.getLast?_concat recs⟩

/-- Witness for C4 at a concrete logger state and row. -/
theorem C4_durability_witness :
    ((CSVLogger.log (CSVLogger.init false true) Option.none
        [("a", PyVal.num "1")]).2).isSome = true
    ∧ ((CSVLogger.log (CSVLogger.init false true) Option.none
        [("a", PyVal.num "1")]).2.getD []).getLast?
        = some (projRow
            (CSVLogger.effKeys (CSVLogger.init false true)
              [("a", PyVal.num "1")])
            [("a", PyVal.num "1")]) :=
  C4_durability (CSVLogger.init false true) Option.none
    [("a", PyVal.num "1")] rfl

/-- **C5 counterexample**: the claim says `remove` resets the schema to
`None` in every instance state, including one whose schema is bound but
whose file was never created.  On such a state — reached with
`autosave=False` by one `log` call, which binds the schema but never
creates the file — `remove` takes the no-file branch and leaves the
schema bound. -/
theorem C5_remove_counterexample :
    ((CSVLogger.remove
        (CSVLogger.log (CSVLogger.init false false) Option.none
          [("a", PyVal.num "1")]).1
        (CSVLogger.log (CSVLogger.init false false) Option.none
          [("a", PyVal.num "1")]).2).1).keys = some ["a"]
    ∧ ((CSVLogger.remove
        (CSVLogger.log (CSVLogger.init false false) Option.none
          [("a", PyVal.num "1")]).1
        (CSVLogger.log (CSVLogger.init false false) Option.none
          [("a", PyVal.num "1")]).2).1).keys ≠ Option.none := by
  exact ⟨rfl, by decide⟩

/-- **C5 amended**: `remove` deletes the file and resets the instance to
its pre-first-log state (schema unset, header-written flag cleared)
when the file exists; when the file does not exist it is a no-op that
raises no error and leaves the instance state — including a bound
schema — unchanged. -/
theorem C5_remove (lg : Logger) (file : LogFile) :
    (∀ recs, file = some recs →
      CSVLogger.remove lg file
        = (⟨lg.autosave, false, Option.none⟩, Option.none))
    ∧ (file = Option.none →
      CSVLogger.remove lg file = (lg, Option.none)) := by
  constructor
  · intro recs hf
    subst hf
    rfl
  · intro hf
    subst hf
    rfl

/-- Witness for the amended C5 at a concrete state and file. -/
theorem C5_remove_witness :
    CSVLogger.remove ⟨true, true, some ["a"]⟩ (some [["a"], ["1"]])
      = (⟨true, false, Option.none⟩, Option.none) :=
  (C5_remove ⟨true, true, some ["a"]⟩ (some [["a"], ["1"]])).1
    [["a"], ["1"]] rfl

/-- **C6** Error handling of `log`: for a well-formed row (a mapping of
column names to values) the call never raises — it returns no value and
its whole effect on the file is the (total) `log` transition; for
malformed non-mapping input the `**kwargs` binding fails synchronously
with the `InvalidRowError` before the body runs, and the file is left
untouched (no partial write). -/
theorem C6_invalid_row (lg : Logger) (file : LogFile) :
    (∀ kw, CSVLogger.logRun lg file (CSVLogger.LogInput.mapping kw)
        = (Except.ok (CSVLogger.log lg file kw).1,
           (CSVLogger.log lg file kw).2))
    ∧ ∀ v, CSVLogger.logRun lg file (CSVLogger.LogInput.nonMapping v)
        = (Except.error CSVLogger.invalidRowMsg, file) :=
  ⟨fun _ => rfl, fun _ => rfl⟩

/-- **C7 counterexample**: the claim says `to_dataframe` fails whenever
an existing file cannot be parsed with a consistent column count.  The
file `a,b` / `1` has a record whose field count differs from the
header's, yet polars null-pads the short record and `to_dataframe`
returns a frame, not an error. -/
theorem C7_short_record_counterexample :
    CSVLogger.to_dataframe (some [["a", "b"], ["1"]])
      = Except.ok ⟨["a", "b"], [[Cell.int 1], [Cell.null]]⟩
    ∧ (["1"] : List String).length ≠ (["a", "b"] : List String).length :=
  ⟨rfl, by decide⟩

/-- **C7 amended** `to_dataframe`: when the file does not exist it
returns the empty table, with no columns and no rows; when an existing
file has a record with more fields than the header it fails with the
wrapped parse error (the spec's `CorruptLogError`), having only read
the file; a record with fewer fields than the header is instead
null-padded and the file parses successfully. -/
theorem C7_to_dataframe (header : List String)
    (rows : List (List String)) :
    (CSVLogger.to_dataframe Option.none = Except.ok DataFrame.empty
      ∧ DataFrame.empty.columns = [] ∧ DataFrame.empty.cols = [])
    ∧ ((∃ r ∈ rows, header.length < r.length) →
        CSVLogger.to_dataframe (some (header :: rows))
          = Except.error ("RuntimeError: Failed to load DataFrame: "
              ++ "ComputeError: found more fields than defined in header"))
    ∧ ((∀ r ∈ rows, r.length ≤ header.length) →
        CSVLogger.to_dataframe (some (header :: rows))
          = Except.ok ⟨header, (List.range header.length).map
              (fun j => inferColumn (rows.map (fun r => r.getD j "")))⟩) := by
  refine ⟨⟨rfl, rfl, rfl⟩, ?_, ?_⟩
  · rintro ⟨r, hr, hlen⟩
    have hall : rows.all (fun r => r.length ≤ header.length) = false := by
      rw [List.all_eq_false]
      refine ⟨r, hr, ?_⟩
      simpa using Nat.not_le.mpr hlen
    simp [CSVLogger.to_dataframe, parseCSV, hall]
  · intro hle
    have hall : rows.all (fun r => r.length ≤ header.length) = true := by
      rw [List.all_eq_true]
      intro r hr
      simpa using hle r hr
    simp [CSVLogger.to_dataframe, parseCSV, hall]

/-- Witness for the amended C7: a record longer than the header errors,
a record shorter than the header parses. -/
theorem C7_to_dataframe_witness :
    CSVLogger.to_dataframe (some [["a", "b"], ["1", "2", "3"]])
      = Except.error ("RuntimeError: Failed to load DataFrame: "
          ++ "ComputeError: found more fields than defined in header")
    ∧ CSVLogger.to_dataframe (some [["a", "b"], ["1"]])
      = Except.ok ⟨["a", "b"],
          (List.range (["a", "b"] : List String).length).map
            (fun j => inferColumn ([["1"]].map (fun r => r.getD j "")))⟩ :=
  ⟨(C7_to_dataframe ["a", "b"] [["1", "2", "3"]]).2.1
      ⟨["1", "2", "3"], by decide, by decide⟩,
   (C7_to_dataframe ["a", "b"] [["1"]]).2.2 (by decide)⟩

/-- **C8** Sequence lossy encoding: logging `{"x": [1,2,3]}` — whether
the value is a Python list or an array-like exposing `tolist` — stores
one bracketed, comma-separated textual field, and reading column `x`
back from the file (`to_dataframe`, the round trip through the parsed
table) yields the literal string `"[1, 2, 3]"` as a textual cell, not a
numeric list. -/
theorem C8_sequence_lossy :
    ((CSVLogger.log (CSVLogger.init false true) Option.none
        [("x", PyVal.pylist [1, 2, 3])]).2 = some [["x"], ["[1, 2, 3]"]]
      ∧ (CSVLogger.log (CSVLogger.init false true) Option.none
        [("x", PyVal.arrayLike [1, 2, 3])]).2 = some [["x"], ["[1, 2, 3]"]])
    ∧ CSVLogger.to_dataframe
        (CSVLogger.log (CSVLogger.init false true) Option.none
          [("x", PyVal.pylist [1, 2, 3])]).2
      = Except.ok ⟨["x"], [[Cell.str "[1, 2, 3]"]]⟩ :=
  ⟨⟨rfl, rfl⟩, rfl⟩

/-- **C9** With `autosave=False`, `log` leaves the log file completely
unchanged (never created nor appended to), and the instance state after
the call depends only on the input's key names — the projected row's
values are discarded and retained by no buffer, so no later operation
can ever write them. -/
theorem C9_no_autosave (lg : Logger) (file : LogFile)
    (kw : List (String × PyVal)) (h : lg.autosave = false) :
    (CSVLogger.log lg file kw).2 = file
    ∧ ∀ kw', kw'.map Prod.fst = kw.map Prod.fst →
        (CSVLogger.log lg file kw').1 = (CSVLogger.log lg file kw).1 := by
  obtain ⟨a, hw, okeys⟩ := lg
  subst h
  constructor
  · simp [CSVLogger.log]
  · intro kw' hk
    cases okeys with
    | none => simp [CSVLogger.log, CSVLogger.effKeys, hk]
    | some ks => simp [CSVLogger.log, CSVLogger.effKeys]

/-- Witness for C9 at a concrete state and two same-key inputs. -/
theorem C9_no_autosave_witness :
    (CSVLogger.log (CSVLogger.init false false) Option.none
        [("a", PyVal.num "1")]).2 = Option.none
    ∧ (CSVLogger.log (CSVLogger.init false false) Option.none
        [("a", PyVal.num "2")]).1
      = (CSVLogger.log (CSVLogger.init false false) Option.none
        [("a", PyVal.num "1")]).1 :=
  ⟨(C9_no_autosave (CSVLogger.init false false) Option.none
      [("a", PyVal.num "1")] rfl).1,
   (C9_no_autosave (CSVLogger.init false false) Option.none
      [("a", PyVal.num "1")] rfl).2 [("a", PyVal.num "2")] rfl⟩

/-- **C10** `load_from_disk` on a missing file raises (the local `df` is
bound only inside the existence branch, so `return df` fails) rather
than returning an empty table or acting as a no-op; and whenever it
returns normally, the in-memory schema and header-written flag were
updated only on a non-empty frame read from an existing file — on an
empty frame the instance is returned unchanged. -/
theorem C10_load_from_disk (lg : Logger) (recs : List (List String)) :
    CSVLogger.load_from_disk lg Option.none
      = Except.error CSVLogger.nameErrMsg
    ∧ (∀ lg' df,
        CSVLogger.load_from_disk lg (some recs) = Except.ok (lg', df) →
        (df.height = 0 ∧ lg' = lg)
        ∨ (df.height ≠ 0 ∧ lg'.keys = some df.columns
            ∧ lg'.headersWritten = true)) := by
  refine ⟨rfl, ?_⟩
  intro lg' df h
  simp only [CSVLogger.load_from_disk] at h
  cases hp : parseCSV recs with
  | error e =>
    rw [hp] at h
    exact absurd h (by simp)
  | ok df0 =>
    rw [hp] at h
    simp only [] at h
    by_cases h0 : df0.height = 0
    · rw [if_neg (by simpa using h0)] at h
      obtain ⟨h1, h2⟩ := Prod.mk.injEq .. ▸ Except.ok.inj h
      refine Or.inl ⟨?_, h1.symm⟩
      rw [← h2]
      exact h0
    · rw [if_pos h0] at h
      obtain ⟨h1, h2⟩ := Prod.mk.injEq .. ▸ Except.ok.inj h
      subst h2
      refine Or.inr ⟨h0, ?_, ?_⟩
      · rw [← h1]
      · rw [← h1]

/-- Witness for C10: the missing-file error, and the schema adoption on
a concrete one-row file. -/
theorem C10_load_from_disk_witness :
    CSVLogger.load_from_disk (CSVLogger.init false true) Option.none
        = Except.error CSVLogger.nameErrMsg
    ∧ (((⟨["a"], [[Cell.int 1]]⟩ : DataFrame).height = 0
        ∧ (⟨true, true, some ["a"]⟩ : Logger) = CSVLogger.init false true)
      ∨ ((⟨["a"], [[Cell.int 1]]⟩ : DataFrame).height ≠ 0
        ∧ (⟨true, true, some ["a"]⟩ : Logger).keys
            = some (⟨["a"], [[Cell.int 1]]⟩ : DataFrame).columns
        ∧ (⟨true, true, some ["a"]⟩ : Logger).headersWritten = true)) :=
  ⟨(C10_load_from_disk (CSVLogger.init false true) []).1,
   (C10_load_from_disk (CSVLogger.init false true) [["a"], ["1"]]).2
     ⟨true, true, some ["a"]⟩ ⟨["a"], [[Cell.int 1]]⟩ rfl⟩
